import Mathlib

/-!
Verification of the variant-resolution engine of robot-is-chill
(`src/cogs/variants.py`) against its natural-language specification.

The Python module is shallowly embedded below:
* Python `dict[str, Any]` values become association lists over an explicit
  `Value` type; `dict.get`, item assignment and `dict.update` become
  `dictGet`, `setField` and `updateFields` (Python dicts keep insertion
  order; an update of an existing key keeps its position, a new key is
  appended — `setField` mirrors this).
* Python integers become `Int`.  All `%` and `divmod` in the module use
  positive divisors (8, 4, 32), for which Python's floor semantics agree
  with `Int.emod` / `Int.ediv`, so those are used directly.
* List indexing becomes `pyGet` (negative indices count from the end, an
  out-of-range index is `none`, standing for `IndexError`).
* Code that can raise becomes `Except Err _`; an uncaught exception is
  `.error e` and propagates through explicit `match`es exactly where the
  Python exception would propagate.
* Truthiness of `flags.get(...)` becomes `truthy`.
-/

/-- A Python runtime value as used by the variant engine's field dicts. -/
inductive Value where
  | vNone : Value
  | vInt : Int → Value
  | vBool : Bool → Value
  | vStr : String → Value
  | vPair : Value → Value → Value
  | vList : List Value → Value

/-- `dict.get(key)`: first binding of `key`, if any. -/
def dictGet {α : Type} : List (String × α) → String → Option α
  | [], _ => none
  | (k, v) :: rest, key => if k = key then some v else dictGet rest key

/-- `dict[key] = value`: replace the first binding in place, else append
(Python dicts preserve insertion order). -/
def setField {α : Type} : List (String × α) → String → α → List (String × α)
  | [], key, value => [(key, value)]
  | (k, v) :: rest, key, value =>
    if k = key then (key, value) :: rest else (k, v) :: setField rest key value

/-- A `TileFields` accumulator: the mutable dict built during resolution. -/
abbrev Fields : Type := List (String × Value)

/-- `fields.update(d)`: assign every binding of `d` into `fields` in order. -/
def updateFields (fields : Fields) (d : Fields) : Fields :=
  d.foldl (fun acc kv => setField acc kv.1 kv.2) fields

/-- Lookup in a `TileFields` dict. -/
def getField (fields : Fields) (key : String) : Option Value :=
  dictGet fields key

/-- Python truthiness of an optional value (`bool(flags.get(k))`). -/
def truthy : Option Value → Bool
  | none => false
  | some Value.vNone => false
  | some (Value.vInt n) => n != 0
  | some (Value.vBool b) => b
  | some (Value.vStr s) => s != ""
  | some (Value.vList l) => !l.isEmpty
  | some (Value.vPair _ _) => true

/-- Python list indexing: negative indices count from the end; out of
range is `none` (an `IndexError`). -/
def pyGet {α : Type} (xs : List α) (i : Int) : Option α :=
  if 0 ≤ i then xs.get? i.toNat
  else if 0 ≤ i + xs.length then xs.get? (i + xs.length).toNat
  else none

/-- `RawTile`: identifier, ordered modifier tokens, text-tile flag. -/
structure RawTile where
  name : String
  variants : List String
  is_text : Bool
  deriving Repr, DecidableEq

/-- The static per-identifier metadata record (`TileData`). -/
structure TileData where
  source : String
  sprite : String
  tiling : Int
  active_color : Int × Int
  inactive_color : Int × Int
  text_type : Int
  deriving Repr, DecidableEq

/-- The static-record cache built by the batch fetch. -/
abbrev TileCache : Type := List (String × TileData)

/-- The flag dict threaded through resolution. -/
abbrev Flags : Type := List (String × Value)

/-- A 4-level grid of tiles, read as `grid[d][l][y][x]` by the adjacency
query and produced as step→row→column→stack by `handle_grid`; both views
have this type, exactly as in the dynamically typed source. -/
abbrev Grid : Type := List (List (List (List RawTile)))

/- ## Variant codec (`split_variant` / `join_variant`) -/

/-- `split_variant` (variants.py:283-291): `divmod(variant, 8)` with the
remainder-7 case reinterpreted as the sleep frame. -/
def split_variant (variant : Option Int) : Int × Int :=
  match variant with
  | none => (0, 0)
  | some v =>
    let dir := v / 8
    let anim := v % 8
    let (dir, anim) := if anim = 7 then ((dir + 1) % 4, (-1 : Int)) else (dir, anim)
    (dir * 8, anim)

/-- `join_variant` (variants.py:294-296): `(dir + anim) % 32`. -/
def join_variant (dir : Int) (anim : Int) : Int :=
  (dir + anim) % 32

/-- C3: for every direction in {0, 8, 16, 24} and every animation in
{-1, 0, ..., 6}, `split_variant (join_variant dir anim)` returns the pair
unchanged — the remainder-7 value produced by `anim = -1` is read back as
the sleep frame of the original direction. -/
theorem C3_split_join_inverse (dir anim : Int)
    (hdir : dir ∈ ([0, 8, 16, 24] : List Int))
    (hanim : anim ∈ ([-1, 0, 1, 2, 3, 4, 5, 6] : List Int)) :
    split_variant (some (join_variant dir anim)) = (dir, anim) := by
  fin_cases hdir <;> fin_cases hanim <;> decide

/-- Witness for C3 at the wrap-around input (0, -1). -/
theorem C3_split_join_inverse_witness :
    ((0 : Int) ∈ ([0, 8, 16, 24] : List Int)) ∧
    ((-1 : Int) ∈ ([-1, 0, 1, 2, 3, 4, 5, 6] : List Int)) ∧
    split_variant (some (join_variant 0 (-1))) = (0, -1) :=
  ⟨by decide, by decide, C3_split_join_inverse 0 (-1) (by decide) (by decide)⟩

/-- C4 counterexample: the claim states `join_variant 24 6 = 6`, but the
code computes `(24 + 6) % 32 = 30`. -/
theorem C4_counterexample :
    join_variant 24 6 = 30 ∧ join_variant 24 6 ≠ 6 := by
  constructor <;> decide

/-- C4 (amended): `join_variant` is total over the integers; whenever the
sum lies in 0..31 the 32-modulus is exact (the sum is returned unchanged);
in particular `join_variant 24 6 = 30`. -/
theorem C4_amended (dir anim : Int) :
    (0 ≤ dir + anim → dir + anim < 32 → join_variant dir anim = dir + anim)
    ∧ join_variant 24 6 = 30 := by
  refine ⟨fun h0 h32 => ?_, by decide⟩
  unfold join_variant
  exact Int.emod_eq_of_lt h0 h32

/-- Witness for C4 (amended): the in-range branch at (1, 2). -/
theorem C4_amended_witness : join_variant 1 2 = 3 :=
  (C4_amended 1 2).1 (by decide) (by decide)

/- ## Errors (`errors.py`, surfaced through the engine) -/

/-- The first argument of `BadTilingVariant`: `directions` passes the whole
`RawTile`, the other raisers pass `tile.name`. -/
inductive TileRef where
  | tile : RawTile → TileRef
  | name : String → TileRef

/-- The error kinds raised by the engine (plus `keyError` / `indexError` /
`typeError` for the built-in exceptions the Python code can hit). -/
inductive Err where
  | unknownVariant : RawTile → String → Err
  | badTilingVariant : TileRef → String → Value → Err
  | badPaletteIndex : String → String → Err
  | badMetaVariant : String → String → Int → Err
  | tileNotText : String → String → Err
  | badLetterVariant : String → String → Err
  | tileNotFound : RawTile → Err
  | variantError : String → Err
  | keyError : Err
  | indexError : Err
  | typeError : Err

/-- Lift an optional value into `Except`, raising `IndexError` on `none`. -/
def liftIndex {α : Type} : Option α → Except Err α
  | none => Except.error Err.indexError
  | some a => Except.ok a

/- ## Adjacency resolver (`ContextBase.is_adjacent`, variants.py:47-55) -/

/-- `is_adjacent`: the boundary test returns the `tile_borders` flag, the
in-bounds test compares the occupant's name against the origin tile's name
and the reserved `"level"` / `"border"` markers.  The `d`/`l` indexing
follows the source (`self.grid[d][l][y][x]`); `none` models an
`IndexError` escaping the method. -/
def is_adjacent (tile : RawTile) (grid : Grid) (flags : Flags)
    (coordinate : Int × Int × Int × Int) : Option Bool :=
  let (d, x, y, l) := coordinate
  match pyGet grid d with
  | none => none
  | some step =>
    if x < 0 ∨ y < 0 then
      some (truthy (dictGet flags "tile_borders"))
    else
      match pyGet step l with
      | none => none
      | some layer =>
        if (layer.length : Int) ≤ y then
          some (truthy (dictGet flags "tile_borders"))
        else
          match pyGet layer 0 with
          | none => none
          | some row0 =>
            if (row0.length : Int) ≤ x then
              some (truthy (dictGet flags "tile_borders"))
            else
              match pyGet layer y with
              | none => none
              | some row =>
                match pyGet row x with
                | none => none
                | some occupant =>
                  some (occupant.name == tile.name
                        || occupant.name == "level"
                        || occupant.name == "border")

/- ## Pattern registry and resolution engine (`Handler`, `VariantHandlers`) -/

/-- The context a handler is invoked in (`HandlerContext`): the shared
field accumulator, the matched token and its captured groups, the
tile-local extras dict, and the ambient tile/grid/index/cache/flags. -/
structure HandlerCtx where
  fields : Fields
  variant : String
  groups : List (Option String)
  extras : Fields
  tile : RawTile
  grid : Grid
  index : Int × Int × Int × Int
  tile_data_cache : TileCache
  flags : Flags

/-- The context a default factory is invoked in (`DefaultContext`). -/
structure DefaultCtx where
  tile : RawTile
  grid : Grid
  index : Int × Int × Int × Int
  tile_data_cache : TileCache
  flags : Flags

/-- `ctx.tile_data`: cache lookup by the tile's name. -/
def HandlerCtx.tile_data (ctx : HandlerCtx) : Option TileData :=
  dictGet ctx.tile_data_cache ctx.tile.name

/-- `ctx.tile_data` for a default context. -/
def DefaultCtx.tile_data (ctx : DefaultCtx) : Option TileData :=
  dictGet ctx.tile_data_cache ctx.tile.name

/-- One registered rule (`Handler`).  The compiled regular expression is
embedded as its matching function: `matchFn v` is
`re.fullmatch(pattern, v)` returning the captured groups on success.  The
transform returns the partial field dict together with the (possibly
mutated) extras dict. -/
structure Handler where
  matchFn : String → Option (List (Option String))
  fn : HandlerCtx → Except Err (Fields × Fields)

/-- Modelled from the spec: `FullTile.from_tile_fields` (module
`src/tile.py` is not among the given sources) — "the immutable result —
original tile reference plus the final attribute set" (§3), built at the
end of per-tile resolution. -/
structure FullTileR where
  tile : RawTile
  fields : Fields

/-- `FullTile.from_tile_fields` — see `FullTileR`. -/
def FullTileR.from_tile_fields (tile : RawTile) (fields : Fields) : FullTileR :=
  ⟨tile, fields⟩

/-- The registry (`VariantHandlers`): the ordered rule list, the single
default-field factory and the single finalizer (the finalizer mutates the
`FullTile`; here it returns the mutated value, and may raise). -/
structure VariantHandlers where
  handlers : List Handler
  default_fields : DefaultCtx → Except Err Fields
  finalizer : FullTileR → Flags → Except Err FullTileR

/-- The inner scan of `handle_tile` (variants.py:204-221): walk the given
handler list (already reversed by the caller), and for EVERY handler whose
pattern matches, run its transform on the current accumulator and merge
the result with `fields.update`; `failed` is cleared by any match.  Note
the source has no `break`: the scan continues past a match. -/
def scanHandlers (tile : RawTile) (grid : Grid) (index : Int × Int × Int × Int)
    (cache : TileCache) (flags : Flags) (variant : String) :
    List Handler → Fields → Fields → Bool → Except Err (Fields × Fields × Bool)
  | [], fields, extras, failed => Except.ok (fields, extras, failed)
  | h :: rest, fields, extras, failed =>
    match h.matchFn variant with
    | none => scanHandlers tile grid index cache flags variant rest fields extras failed
    | some groups =>
      match h.fn ⟨fields, variant, groups, extras, tile, grid, index, cache, flags⟩ with
      | Except.error e => Except.error e
      | Except.ok (d, extras') =>
        scanHandlers tile grid index cache flags variant rest
          (updateFields fields d) extras' false

/-- Processing of one modifier token inside `handle_tile`: scan the
handlers in reverse registration order and raise `UnknownVariant` if none
matched. -/
def handle_variant (hs : List Handler) (tile : RawTile) (grid : Grid)
    (index : Int × Int × Int × Int) (cache : TileCache) (flags : Flags)
    (variant : String) (fields extras : Fields) : Except Err (Fields × Fields) :=
  match scanHandlers tile grid index cache flags variant hs.reverse fields extras true with
  | Except.error e => Except.error e
  | Except.ok (fields', extras', failed) =>
    if failed then Except.error (Err.unknownVariant tile variant)
    else Except.ok (fields', extras')

/-- The fold of `handle_variant` over the tile's modifier tokens in
order. -/
def handleVariants (hs : List Handler) (tile : RawTile) (grid : Grid)
    (index : Int × Int × Int × Int) (cache : TileCache) (flags : Flags) :
    List String → Fields → Fields → Except Err (Fields × Fields)
  | [], fields, extras => Except.ok (fields, extras)
  | v :: vs, fields, extras =>
    match handle_variant hs tile grid index cache flags v fields extras with
    | Except.error e => Except.error e
    | Except.ok (fields', extras') =>
      handleVariants hs tile grid index cache flags vs fields' extras'

/-- `VariantHandlers.handle_tile` (variants.py:185-226): default factory,
then every modifier token through the registry, then the finalizer. -/
def handle_tile (vh : VariantHandlers) (tile : RawTile) (grid : Grid)
    (index : Int × Int × Int × Int) (cache : TileCache) (flags : Flags) :
    Except Err FullTileR :=
  match vh.default_fields ⟨tile, grid, index, cache, flags⟩ with
  | Except.error e => Except.error e
  | Except.ok fields =>
    match handleVariants vh.handlers tile grid index cache flags tile.variants fields [] with
    | Except.error e => Except.error e
    | Except.ok (fields', _extras) =>
      vh.finalizer (FullTileR.from_tile_fields tile fields') flags

/-- Sequential effectful map with a running index, modelling the nested
`enumerate` list comprehensions of `handle_grid`: the first raised error
aborts the whole construction. -/
def mapIdxE {α β : Type} (f : Nat → α → Except Err β) : Nat → List α → Except Err (List β)
  | _, [] => Except.ok []
  | i, a :: as =>
    match f i a with
    | Except.error e => Except.error e
    | Except.ok b =>
      match mapIdxE f (i + 1) as with
      | Except.error e => Except.error e
      | Except.ok bs => Except.ok (b :: bs)

/-- `VariantHandlers.handle_grid` (variants.py:228-251): resolve every
cell with the shared static-record cache (the batch fetch that builds the
cache is the external-store boundary and the cache is taken as an
argument).  The cell index passed down is `(d, x, y, z)`. -/
def handle_grid (vh : VariantHandlers) (grid : Grid) (cache : TileCache)
    (flags : Flags) : Except Err (List (List (List (List FullTileR)))) :=
  mapIdxE (fun d step =>
    mapIdxE (fun y row =>
      mapIdxE (fun x stack =>
        mapIdxE (fun z tile =>
          handle_tile vh tile grid (Int.ofNat d, Int.ofNat x, Int.ofNat y, Int.ofNat z) cache flags)
          0 stack)
        0 row)
      0 step)
    0 grid

/- ## The `add` helper (variants.py:377-386) -/

/-- The `add` helper: read the current `"filters"` entry; if it is a list,
return the appended list (Python `f + [[dst, var]]`), otherwise (absent or
a non-list, where `+` raises `TypeError`) start a fresh single-entry
list. -/
def add (ctx : HandlerCtx) (dst : String) (var : Value) : Fields :=
  match getField ctx.fields "filters" with
  | some (Value.vList f) =>
    [("filters", Value.vList (f ++ [Value.vList [Value.vStr dst, var]]))]
  | _ =>
    [("filters", Value.vList [Value.vList [Value.vStr dst, var]])]

/- ## Generic dictionary lemmas -/

/-- Looking up a key right after assigning it yields the assigned value. -/
theorem getField_setField_self (fields : Fields) (k : String) (v : Value) :
    getField (setField fields k v) k = some v := by
  induction fields with
  | nil => simp [setField, getField, dictGet]
  | cons kv rest ih =>
    by_cases h : kv.1 = k
    · simp [setField, getField, dictGet, h]
    · simpa [setField, getField, dictGet, h] using ih

/-- `fields.update({k: v})` is the single assignment `fields[k] = v`. -/
theorem updateFields_single (fields : Fields) (k : String) (v : Value) :
    updateFields fields [(k, v)] = setField fields k v := by
  simp [updateFields, List.foldl]

/- ## Scenario pieces shared by the dispatch claims -/

/-- A default-field factory producing the empty dict, standing in for the
registered factory in registry-level scenarios. -/
def emptyDefault : DefaultCtx → Except Err Fields := fun _ => Except.ok []

/-- A finalizer that leaves the tile unchanged, standing in for the
registered finalizer in registry-level scenarios. -/
def idFinalizer : FullTileR → Flags → Except Err FullTileR :=
  fun full _ => Except.ok full

/-- The `blank` handler (variants.py:750-756): pattern `blank`, transform
`add(ctx, 'blank', True)`. -/
def blankHandler : Handler where
  matchFn := fun v => if v = "blank" then some [] else none
  fn := fun ctx => Except.ok (add ctx "blank" (Value.vBool true), ctx.extras)

/-- The `flipx` handler (variants.py:783-789): pattern `flipx`, transform
`add(ctx, 'flipx', True)`. -/
def flipxHandler : Handler where
  matchFn := fun v => if v = "flipx" then some [] else none
  fn := fun ctx => Except.ok (add ctx "flipx" (Value.vBool true), ctx.extras)

/- ## C1: dispatch order and merge of overlapping handlers -/

/-- A handler matching the token `"tok"` and writing `k = 1` plus its own
marker key; registered FIRST in the C1 scenario. -/
def C1first : Handler where
  matchFn := fun v => if v = "tok" then some [] else none
  fn := fun ctx =>
    Except.ok ([("k", Value.vInt 1), ("first_mark", Value.vBool true)], ctx.extras)

/-- A handler matching the same token `"tok"` and writing `k = 2` plus its
own marker key; registered SECOND (more recently) in the C1 scenario. -/
def C1second : Handler where
  matchFn := fun v => if v = "tok" then some [] else none
  fn := fun ctx =>
    Except.ok ([("k", Value.vInt 2), ("second_mark", Value.vBool true)], ctx.extras)

/-- The two-handler registry of the C1 scenario, `C1first` registered
before `C1second`. -/
def C1vh : VariantHandlers :=
  ⟨[C1first, C1second], emptyDefault, idFinalizer⟩

/-- The C1 scenario tile: one modifier token `"tok"`, matched by both
handlers. -/
def C1tile : RawTile := ⟨"thing", ["tok"], false⟩

/-- C1 counterexample: with two overlapping handlers, per-tile resolution
does NOT stop at the first (most recently registered) match — the inner
loop has no `break`, so both transforms are merged (both marker keys are
present) and the overlapping key `k` ends with the value written by the
EARLIEST-registered handler, not the most recent one. -/
theorem C1_counterexample :
    handle_tile C1vh C1tile [] (0, 0, 0, 0) [] []
      = Except.ok ⟨C1tile,
          [("k", Value.vInt 1), ("second_mark", Value.vBool true),
           ("first_mark", Value.vBool true)]⟩
    ∧ Value.vInt 1 ≠ Value.vInt 2 := by
  constructor
  · rfl
  · simp

/-- C1 (amended): per-tile resolution scans the handlers in reverse
registration order and merges the result of EVERY handler whose pattern
matches the token (the scan does not stop at the first match); when two
handlers both match, the handler registered EARLIEST (equivalently,
inserted at the lowest explicit priority index) determines overlapping
fields, because its merge is applied last. -/
theorem C1_amended (h1 h2 : Handler) (tile : RawTile) (grid : Grid)
    (index : Int × Int × Int × Int) (cache : TileCache) (flags : Flags)
    (v : String) (g1 g2 : List (Option String)) (k : String) (a b : Value)
    (hm1 : h1.matchFn v = some g1) (hm2 : h2.matchFn v = some g2)
    (hf1 : ∀ ctx : HandlerCtx, h1.fn ctx = Except.ok ([(k, a)], ctx.extras))
    (hf2 : ∀ ctx : HandlerCtx, h2.fn ctx = Except.ok ([(k, b)], ctx.extras)) :
    ∀ fields extras : Fields,
      handle_variant [h1, h2] tile grid index cache flags v fields extras
        = Except.ok (setField (setField fields k b) k a, extras)
      ∧ getField (setField (setField fields k b) k a) k = some a := by
  intro fields extras
  constructor
  · simp [handle_variant, scanHandlers, hm1, hm2, hf1, hf2, updateFields_single]
  · exact getField_setField_self _ k a

/-- Witness for C1 (amended), instantiated with the concrete overlapping
handlers of the counterexample scenario (single-key variants). -/
def C1firstK : Handler where
  matchFn := fun v => if v = "tok" then some [] else none
  fn := fun ctx => Except.ok ([("k", Value.vInt 1)], ctx.extras)

/-- The more recently registered single-key C1 witness handler. -/
def C1secondK : Handler where
  matchFn := fun v => if v = "tok" then some [] else none
  fn := fun ctx => Except.ok ([("k", Value.vInt 2)], ctx.extras)

/-- Witness for C1 (amended) at a concrete registry, token and
accumulator. -/
theorem C1_amended_witness :
    handle_variant [C1firstK, C1secondK] C1tile [] (0, 0, 0, 0) [] [] "tok" [] []
      = Except.ok ([("k", Value.vInt 1)], [])
    ∧ getField [("k", Value.vInt 1)] "k" = some (Value.vInt 1) := by
  have h := C1_amended C1firstK C1secondK C1tile [] (0, 0, 0, 0) [] [] "tok" [] []
    "k" (Value.vInt 1) (Value.vInt 2) rfl rfl (fun _ => rfl) (fun _ => rfl) [] []
  simpa [setField] using h

/- ## C2: the filters key accumulates instead of overwriting -/

/-- The C2 scenario registry: the source's `blank` and `flipx` filter
handlers (in their registration order) around the stand-in factory and
finalizer. -/
def C2vh : VariantHandlers :=
  ⟨[blankHandler, flipxHandler], emptyDefault, idFinalizer⟩

/-- The C2 scenario tile: two filter-style modifier tokens in order. -/
def C2tile : RawTile := ⟨"baba", ["blank", "flipx"], false⟩

/-- C2: (1) the `add` helper starts a fresh single-entry list when no
filters entry exists and appends to an existing list otherwise; (2) a
plain merge of a returned dict shallowly overwrites a key; (3) end to end,
a tile with the two filter tokens `blank` then `flipx` resolves to a
`filters` list with exactly the two entries in application order. -/
theorem C2_filters_append :
    (∀ (ctx : HandlerCtx) (dst : String) (var : Value),
      (getField ctx.fields "filters" = none →
        add ctx dst var
          = [("filters", Value.vList [Value.vList [Value.vStr dst, var]])])
      ∧ (∀ l, getField ctx.fields "filters" = some (Value.vList l) →
        add ctx dst var
          = [("filters", Value.vList (l ++ [Value.vList [Value.vStr dst, var]]))]))
    ∧ (∀ (fields : Fields) (k : String) (v : Value),
        getField (updateFields fields [(k, v)]) k = some v)
    ∧ handle_tile C2vh C2tile [] (0, 0, 0, 0) [] []
        = Except.ok ⟨C2tile,
            [("filters", Value.vList
              [Value.vList [Value.vStr "blank", Value.vBool true],
               Value.vList [Value.vStr "flipx", Value.vBool true]])]⟩ := by
  refine ⟨fun ctx dst var => ⟨fun h => ?_, fun l h => ?_⟩, fun fields k v => ?_, ?_⟩
  · simp [add, h]
  · simp [add, h]
  · rw [updateFields_single]; exact getField_setField_self fields k v
  · rfl

/-- Witness for C2 at a concrete handler context: no filters entry yet, so
`add` starts a single-entry list. -/
theorem C2_filters_append_witness :
    add ⟨[], "blank", [], [], C2tile, [], (0, 0, 0, 0), [], []⟩ "blank" (Value.vBool true)
      = [("filters", Value.vList [Value.vList [Value.vStr "blank", Value.vBool true]])] :=
  (C2_filters_append.1 ⟨[], "blank", [], [], C2tile, [], (0, 0, 0, 0), [], []⟩
    "blank" (Value.vBool true)).1 rfl

/- ## C5: an unmatched token aborts the tile and the whole grid -/

/-- Scanning handlers none of which match leaves the accumulator, the
extras and the `failed` flag untouched. -/
theorem scanHandlers_nomatch (tile : RawTile) (grid : Grid)
    (index : Int × Int × Int × Int) (cache : TileCache) (flags : Flags)
    (v : String) (hs : List Handler) (fields extras : Fields) (failed : Bool)
    (h : ∀ hd ∈ hs, hd.matchFn v = none) :
    scanHandlers tile grid index cache flags v hs fields extras failed
      = Except.ok (fields, extras, failed) := by
  induction hs with
  | nil => rfl
  | cons hd rest ih =>
    have h1 := h hd (List.mem_cons_self hd rest)
    rw [scanHandlers, h1]
    exact ih (fun x hx => h x (List.mem_cons_of_mem _ hx))

/-- A token matched by no registered handler makes per-token processing
raise `UnknownVariant` carrying the tile and the token. -/
theorem handle_variant_unknown (hs : List Handler) (tile : RawTile)
    (grid : Grid) (index : Int × Int × Int × Int) (cache : TileCache)
    (flags : Flags) (v : String) (fields extras : Fields)
    (h : ∀ hd ∈ hs, hd.matchFn v = none) :
    handle_variant hs tile grid index cache flags v fields extras
      = Except.error (Err.unknownVariant tile v) := by
  unfold handle_variant
  rw [scanHandlers_nomatch tile grid index cache flags v hs.reverse fields extras true
    (fun x hx => h x (List.mem_reverse.mp hx))]
  rfl

/-- If some token of the list is matched by no handler, the token fold can
never succeed. -/
theorem handleVariants_ne_ok (hs : List Handler) (tile : RawTile)
    (grid : Grid) (index : Int × Int × Int × Int) (cache : TileCache)
    (flags : Flags) (vs : List String) (v : String) (hv : v ∈ vs)
    (h : ∀ hd ∈ hs, hd.matchFn v = none) :
    ∀ (fields extras : Fields) (out : Fields × Fields),
      handleVariants hs tile grid index cache flags vs fields extras ≠ Except.ok out := by
  induction vs with
  | nil => cases hv
  | cons u rest ih =>
    intro fields extras out hok
    rcases List.mem_cons.mp hv with rfl | hvrest
    · rw [handleVariants,
        handle_variant_unknown hs tile grid index cache flags v fields extras h] at hok
      cases hok
    · cases hcase : handle_variant hs tile grid index cache flags u fields extras with
      | error e => rw [handleVariants, hcase] at hok; cases hok
      | ok p =>
        rw [handleVariants, hcase] at hok
        exact ih hvrest p.1 p.2 out hok

/-- If some token of the tile is matched by no handler, per-tile
resolution can never succeed. -/
theorem handle_tile_ne_ok (vh : VariantHandlers) (tile : RawTile)
    (grid : Grid) (index : Int × Int × Int × Int) (cache : TileCache)
    (flags : Flags) (v : String) (hv : v ∈ tile.variants)
    (h : ∀ hd ∈ vh.handlers, hd.matchFn v = none) :
    ∀ out, handle_tile vh tile grid index cache flags ≠ Except.ok out := by
  intro out hok
  unfold handle_tile at hok
  split at hok
  next e heq => cases hok
  next fields heq =>
    split at hok
    next e heq2 => cases hok
    next fields' ex heq2 =>
      exact handleVariants_ne_ok vh.handlers tile grid index cache flags
        tile.variants v hv h fields [] (fields', ex) heq2

/-- A successful `mapIdxE` run means every list element was mapped
successfully at some index. -/
theorem mapIdxE_ok_mem {α β : Type} (f : Nat → α → Except Err β) :
    ∀ (l : List α) (i : Nat) (out : List β), mapIdxE f i l = Except.ok out →
      ∀ a ∈ l, ∃ j b, f j a = Except.ok b := by
  intro l
  induction l with
  | nil => intro i out _ a ha; cases ha
  | cons x xs ih =>
    intro i out hok a ha
    cases hfx : f i x with
    | error e => rw [mapIdxE, hfx] at hok; cases hok
    | ok b =>
      rcases List.mem_cons.mp ha with rfl | haxs
      · exact ⟨i, b, hfx⟩
      · cases hrest : mapIdxE f (i + 1) xs with
        | error e => rw [mapIdxE, hfx, hrest] at hok; cases hok
        | ok bs => exact ih (i + 1) bs hrest a haxs

/-- C5: a modifier token of a tile in the grid that matches no registered
handler makes per-token resolution raise `UnknownVariant` carrying that
tile and token, and whole-grid resolution cannot return descriptors for
any tile: `handle_grid` never yields an `ok` result. -/
theorem C5_unknown_variant_aborts (vh : VariantHandlers) (grid : Grid)
    (cache : TileCache) (flags : Flags)
    (step : List (List (List RawTile))) (row : List (List RawTile))
    (stack : List RawTile) (tile : RawTile) (v : String)
    (hstep : step ∈ grid) (hrow : row ∈ step) (hstack : stack ∈ row)
    (htile : tile ∈ stack) (hv : v ∈ tile.variants)
    (hnomatch : ∀ hd ∈ vh.handlers, hd.matchFn v = none) :
    (∀ (index : Int × Int × Int × Int) (fields extras : Fields),
      handle_variant vh.handlers tile grid index cache flags v fields extras
        = Except.error (Err.unknownVariant tile v))
    ∧ ∀ out, handle_grid vh grid cache flags ≠ Except.ok out := by
  constructor
  · intro index fields extras
    exact handle_variant_unknown vh.handlers tile grid index cache flags v
      fields extras hnomatch
  · intro out hok
    unfold handle_grid at hok
    obtain ⟨d, so, h1⟩ := mapIdxE_ok_mem _ _ _ _ hok step hstep
    obtain ⟨y, ro, h2⟩ := mapIdxE_ok_mem _ _ _ _ h1 row hrow
    obtain ⟨x, sto, h3⟩ := mapIdxE_ok_mem _ _ _ _ h2 stack hstack
    obtain ⟨z, b, h4⟩ := mapIdxE_ok_mem _ _ _ _ h3 tile htile
    exact handle_tile_ne_ok vh tile grid _ cache flags v hv hnomatch b h4

/-- The C5 scenario tile: its only token `"zzqq"` matches no handler. -/
def C5tile : RawTile := ⟨"baba", ["zzqq"], false⟩

/-- The C5 scenario single-cell grid holding `C5tile`. -/
def C5grid : Grid := [[[[C5tile]]]]

/-- The C5 scenario registry (only the `blank` handler, which does not
match `"zzqq"`). -/
def C5vh : VariantHandlers := ⟨[blankHandler], emptyDefault, idFinalizer⟩

/-- Witness for C5 at the concrete single-cell grid. -/
theorem C5_unknown_variant_aborts_witness :
    handle_variant C5vh.handlers C5tile C5grid (0, 0, 0, 0) [] [] "zzqq" [] []
      = Except.error (Err.unknownVariant C5tile "zzqq")
    ∧ handle_grid C5vh C5grid [] [] ≠ Except.ok [] := by
  have h := C5_unknown_variant_aborts C5vh C5grid [] []
    [[[C5tile]]] [[C5tile]] [C5tile] C5tile "zzqq"
    (by decide) (by decide) (by decide) (by decide) (by decide)
    (by intro hd hhd
        simp [C5vh] at hhd
        subst hhd
        rfl)
  exact ⟨h.1 (0, 0, 0, 0) [] [], h.2 []⟩

/- ## C6: adjacency at the boundary and in bounds -/

/-- C6: with the step and layer of the queried coordinate resolved, (1) a
negative `x` or `y`, or a `y` at or past the layer's row count, returns
the `tile_borders` ("treat edges as joined") flag; (2) so does an `x` at
or past the width of the layer's first row; (3) in bounds, the query
returns whether the occupant's name equals the origin tile's name or one
of the reserved `"level"` / `"border"` markers. -/
theorem C6_is_adjacent_boundary (tile : RawTile) (grid : Grid) (flags : Flags)
    (d x y l : Int) (step : List (List (List RawTile))) (layer : List (List RawTile))
    (hd : pyGet grid d = some step) (hl : pyGet step l = some layer) :
    ((x < 0 ∨ y < 0 ∨ (layer.length : Int) ≤ y) →
      is_adjacent tile grid flags (d, x, y, l)
        = some (truthy (dictGet flags "tile_borders")))
    ∧ (∀ row0, pyGet layer 0 = some row0 →
        0 ≤ x → 0 ≤ y → y < (layer.length : Int) → (row0.length : Int) ≤ x →
        is_adjacent tile grid flags (d, x, y, l)
          = some (truthy (dictGet flags "tile_borders")))
    ∧ (∀ row0 row occupant, pyGet layer 0 = some row0 → pyGet layer y = some row →
        pyGet row x = some occupant →
        0 ≤ x → 0 ≤ y → y < (layer.length : Int) → x < (row0.length : Int) →
        is_adjacent tile grid flags (d, x, y, l)
          = some (occupant.name == tile.name || occupant.name == "level"
                  || occupant.name == "border")) := by
  refine ⟨fun hcase => ?_, fun row0 h0 hx hy hylt hxe => ?_,
    fun row0 row occupant h0 hrow hocc hx hy hylt hxlt => ?_⟩
  · by_cases hxy : x < 0 ∨ y < 0
    · simp [is_adjacent, hd, hxy]
    · have hlen : (layer.length : Int) ≤ y := by
        rcases hcase with h | h | h
        · exact absurd (Or.inl h) hxy
        · exact absurd (Or.inr h) hxy
        · exact h
      simp [is_adjacent, hd, hl, hxy, hlen]
  · have hxy : ¬(x < 0 ∨ y < 0) := by omega
    have hlen : ¬((layer.length : Int) ≤ y) := by omega
    simp [is_adjacent, hd, hl, h0, hxy, hlen, hxe]
  · have hxy : ¬(x < 0 ∨ y < 0) := by omega
    have hlen : ¬((layer.length : Int) ≤ y) := by omega
    have hxl : ¬((row0.length : Int) ≤ x) := by omega
    simp [is_adjacent, hd, hl, h0, hrow, hocc, hxy, hlen, hxl]

/-- The C6 scenario tile. -/
def C6tile : RawTile := ⟨"baba", [], false⟩

/-- The C6 scenario single-cell grid occupied by `C6tile`. -/
def C6grid : Grid := [[[[C6tile]]]]

/-- Witness for C6: at the single-cell grid, an out-of-bounds neighbor is
`false` with the flag unset and `true` with it set, and the in-bounds cell
joins (same name). -/
theorem C6_is_adjacent_boundary_witness :
    is_adjacent C6tile C6grid [] (0, -1, 0, 0) = some false
    ∧ is_adjacent C6tile C6grid [("tile_borders", Value.vBool true)] (0, -1, 0, 0) = some true
    ∧ is_adjacent C6tile C6grid [] (0, 0, 0, 0) = some true := by
  refine ⟨?_, ?_, ?_⟩
  · exact ((C6_is_adjacent_boundary C6tile C6grid [] 0 (-1) 0 0
      [[[C6tile]]] [[C6tile]] rfl rfl).1 (Or.inl (by decide))).trans rfl
  · exact ((C6_is_adjacent_boundary C6tile C6grid [("tile_borders", Value.vBool true)]
      0 (-1) 0 0 [[[C6tile]]] [[C6tile]] rfl rfl).1 (Or.inl (by decide))).trans rfl
  · exact ((C6_is_adjacent_boundary C6tile C6grid [] 0 0 0 0
      [[[C6tile]]] [[C6tile]] rfl rfl).2.2 [C6tile] [C6tile] C6tile rfl rfl rfl
      (by decide) (by decide) (by decide) (by decide)).trans rfl

/- ## The `constants` module (not among the given sources) -/

/-- Modelled from the spec: the `constants` module is not among the given
sources.  The tiling-category sets gate which modifiers are valid
(glossary "Tiling category"), `DIRECTIONS` holds the direction values
{0, 8, 16, 24} (§4.2), `TILING_VARIANTS` is the bitmask→variant-id table
whose 4-cardinal sub-table is total (§4.3), and the `*_VARIANTS` entries
map modifier tokens to direction / animation values. -/
structure Constants where
  AUTO_TILINGS : List Int
  DIRECTION_TILINGS : List Int
  ANIMATION_TILINGS : List Int
  SLEEP_TILINGS : List Int
  DIRECTIONS : List Int
  TILING_VARIANTS : Bool × Bool × Bool × Bool × Bool × Bool × Bool × Bool → Option Int
  DIRECTION_VARIANTS : List (String × Int)
  ANIMATION_VARIANTS : List (String × Int)
  SLEEP_VARIANTS : List (String × Int)

/-- Modelled from the spec: a concrete instantiation of the missing
`constants` module, used by witnesses — the game's tiling categories
(-1 none, 0 directional, 1 auto-tiled, 2 character, 3
animated-directional, 4 animated), the direction values {0, 8, 16, 24}, a
total bitmask table, and small token maps. -/
def specConstants : Constants where
  AUTO_TILINGS := [1]
  DIRECTION_TILINGS := [0, 2, 3]
  ANIMATION_TILINGS := [2, 3, 4]
  SLEEP_TILINGS := [2]
  DIRECTIONS := [0, 8, 16, 24]
  TILING_VARIANTS := fun k =>
    some ((cond k.1 1 0) + (cond k.2.1 2 0) + (cond k.2.2.1 4 0)
      + (cond k.2.2.2.1 8 0) + (cond k.2.2.2.2.1 16 0)
      + (cond k.2.2.2.2.2.1 32 0) + (cond k.2.2.2.2.2.2.1 64 0)
      + (cond k.2.2.2.2.2.2.2 128 0))
  DIRECTION_VARIANTS :=
    [("right", 0), ("r", 0), ("up", 8), ("u", 8),
     ("left", 16), ("l", 16), ("down", 24), ("d", 24)]
  ANIMATION_VARIANTS := [("a0", 0), ("a1", 1), ("a2", 2), ("a3", 3)]
  SLEEP_VARIANTS := [("sleep", -1)]

/- ## The registered default factory (`default`, variants.py:304-357) -/

namespace setup

/-- The default-field factory: empty marker short-circuit, default color
and variant, auto-tiling bitmask computation for auto-tiled categories
(diagonals short-circuit on their adjacent cardinals exactly as in
`adj_right and adj_up and ctx.is_adjacent(...)`), `raw_output` color
override, and the `TileNotFound` failure for non-text tiles without
static data.  The index is unpacked `d, y, t, x` as in the source; the
enclosing namespace mirrors the `setup` function the factory is nested
in. -/
def default (c : Constants) (ctx : DefaultCtx) : Except Err Fields := do
  if ctx.tile.name = "-" then
    return [("empty", Value.vBool true)]
  match DefaultCtx.tile_data ctx with
  | some tile_data =>
    let color := tile_data.active_color
    let (variant, variant_fallback) ←
      if tile_data.tiling ∈ c.AUTO_TILINGS then do
        let (d, y, t, x) := ctx.index
        let adj_right ← liftIndex (is_adjacent ctx.tile ctx.grid ctx.flags (d, x + 1, y, t))
        let adj_up ← liftIndex (is_adjacent ctx.tile ctx.grid ctx.flags (d, x, y - 1, t))
        let adj_left ← liftIndex (is_adjacent ctx.tile ctx.grid ctx.flags (d, x - 1, y, t))
        let adj_down ← liftIndex (is_adjacent ctx.tile ctx.grid ctx.flags (d, x, y + 1, t))
        let variant_fallback ←
          match c.TILING_VARIANTS (adj_right, adj_up, adj_left, adj_down,
              false, false, false, false) with
          | none => Except.error Err.keyError
          | some vfb => Except.ok vfb
        let adj_rightup ←
          if adj_right && adj_up then
            liftIndex (is_adjacent ctx.tile ctx.grid ctx.flags (d, x + 1, y - 1, t))
          else Except.ok false
        let adj_upleft ←
          if adj_up && adj_left then
            liftIndex (is_adjacent ctx.tile ctx.grid ctx.flags (d, x - 1, y - 1, t))
          else Except.ok false
        let adj_leftdown ←
          if adj_left && adj_down then
            liftIndex (is_adjacent ctx.tile ctx.grid ctx.flags (d, x - 1, y + 1, t))
          else Except.ok false
        let adj_downright ←
          if adj_down && adj_right then
            liftIndex (is_adjacent ctx.tile ctx.grid ctx.flags (d, x + 1, y + 1, t))
          else Except.ok false
        let variant := (c.TILING_VARIANTS (adj_right, adj_up, adj_left, adj_down,
          adj_rightup, adj_upleft, adj_leftdown, adj_downright)).getD variant_fallback
        Except.ok (variant, variant_fallback)
      else Except.ok ((0 : Int), (0 : Int))
    let color := if truthy (dictGet ctx.flags "raw_output") then ((0 : Int), (3 : Int)) else color
    return [("variant_number", Value.vInt variant),
            ("variant_fallback", Value.vInt variant_fallback),
            ("color_index", Value.vPair (Value.vInt color.1) (Value.vInt color.2)),
            ("meta_level", Value.vInt 0),
            ("sprite", Value.vPair (Value.vStr tile_data.source) (Value.vStr tile_data.sprite))]
  | none =>
    if !ctx.tile.is_text then
      Except.error (Err.tileNotFound ctx.tile)
    else
      return [("custom", Value.vBool true),
              ("variant_number", Value.vInt 0),
              ("color_index", Value.vPair (Value.vInt 0) (Value.vInt 3)),
              ("meta_level", Value.vInt 0)]

end setup

/- ## C7: diagonal gating and table fallback of auto-tiling -/

/-- The value of a short-circuited diagonal conjunction
(`a and b and diag`). -/
theorem diag_if_bool (a b v : Bool) :
    (if a && b then (Except.ok v : Except Err Bool) else Except.ok false)
      = Except.ok (a && b && v) := by
  cases a <;> cases b <;> simp

/-- C7: for an auto-tiled tile, the default factory computes the 8-key
whose diagonal components are `cardinal && cardinal && diagonal-cell`;
each diagonal component can be true only when both adjacent cardinals
join; and the variant id is the 8-key table lookup with the 4-cardinal
lookup as fallback, so an absent 8-key yields the fallback id. -/
theorem C7_auto_tiling (c : Constants) (ctx : DefaultCtx) (td : TileData)
    (d y t x : Int) (r u lf dn ru ul ld dr : Bool) (vfb : Int)
    (hname : ¬(ctx.tile.name = "-"))
    (htd : DefaultCtx.tile_data ctx = some td)
    (hauto : td.tiling ∈ c.AUTO_TILINGS)
    (hidx : ctx.index = (d, y, t, x))
    (h_r : is_adjacent ctx.tile ctx.grid ctx.flags (d, x + 1, y, t) = some r)
    (h_u : is_adjacent ctx.tile ctx.grid ctx.flags (d, x, y - 1, t) = some u)
    (h_l : is_adjacent ctx.tile ctx.grid ctx.flags (d, x - 1, y, t) = some lf)
    (h_d : is_adjacent ctx.tile ctx.grid ctx.flags (d, x, y + 1, t) = some dn)
    (h_ru : is_adjacent ctx.tile ctx.grid ctx.flags (d, x + 1, y - 1, t) = some ru)
    (h_ul : is_adjacent ctx.tile ctx.grid ctx.flags (d, x - 1, y - 1, t) = some ul)
    (h_ld : is_adjacent ctx.tile ctx.grid ctx.flags (d, x - 1, y + 1, t) = some ld)
    (h_dr : is_adjacent ctx.tile ctx.grid ctx.flags (d, x + 1, y + 1, t) = some dr)
    (hfb : c.TILING_VARIANTS (r, u, lf, dn, false, false, false, false) = some vfb) :
    setup.default c ctx = Except.ok
      [("variant_number", Value.vInt
          ((c.TILING_VARIANTS (r, u, lf, dn, r && u && ru, u && lf && ul,
            lf && dn && ld, dn && r && dr)).getD vfb)),
       ("variant_fallback", Value.vInt vfb),
       ("color_index", Value.vPair
          (Value.vInt (if truthy (dictGet ctx.flags "raw_output")
            then ((0 : Int), (3 : Int)) else td.active_color).1)
          (Value.vInt (if truthy (dictGet ctx.flags "raw_output")
            then ((0 : Int), (3 : Int)) else td.active_color).2)),
       ("meta_level", Value.vInt 0),
       ("sprite", Value.vPair (Value.vStr td.source) (Value.vStr td.sprite))]
    ∧ ((r && u && ru) = true → r = true ∧ u = true)
    ∧ ((u && lf && ul) = true → u = true ∧ lf = true)
    ∧ ((lf && dn && ld) = true → lf = true ∧ dn = true)
    ∧ ((dn && r && dr) = true → dn = true ∧ r = true)
    ∧ (c.TILING_VARIANTS (r, u, lf, dn, r && u && ru, u && lf && ul,
          lf && dn && ld, dn && r && dr) = none →
        (c.TILING_VARIANTS (r, u, lf, dn, r && u && ru, u && lf && ul,
          lf && dn && ld, dn && r && dr)).getD vfb = vfb) := by
  refine ⟨?_, ?_, ?_, ?_, ?_, fun h => by rw [h]; rfl⟩
  · unfold setup.default
    cases r <;> cases u <;> cases lf <;> cases dn <;>
      simp [hname, htd, hauto, hidx, h_r, h_u, h_l, h_d, h_ru, h_ul, h_ld, h_dr, hfb,
        liftIndex, bind, Except.bind, pure, Except.pure]
  · intro h
    rw [Bool.and_eq_true, Bool.and_eq_true] at h
    exact ⟨h.1.1, h.1.2⟩
  · intro h
    rw [Bool.and_eq_true, Bool.and_eq_true] at h
    exact ⟨h.1.1, h.1.2⟩
  · intro h
    rw [Bool.and_eq_true, Bool.and_eq_true] at h
    exact ⟨h.1.1, h.1.2⟩
  · intro h
    rw [Bool.and_eq_true, Bool.and_eq_true] at h
    exact ⟨h.1.1, h.1.2⟩

/-- Read `fields.get("variant_number")` as the `int | None` argument of
`split_variant` (the engine only stores ints under that key). -/
def fieldAsInt (fields : Fields) (key : String) : Option Int :=
  match getField fields key with
  | some (Value.vInt n) => some n
  | _ => none

/-- The C7 scenario static record: auto-tiled category. -/
def C7td : TileData := ⟨"vanilla", "wall", 1, (1, 1), (1, 0), 0⟩

/-- The C7 scenario tile. -/
def C7tile : RawTile := ⟨"wall", [], false⟩

/-- The C7 scenario single-cell default context. -/
def C7ctx : DefaultCtx :=
  ⟨C7tile, [[[[C7tile]]]], (0, 0, 0, 0), [("wall", C7td)], []⟩

/-- Witness for C7: a lone auto-tiled cell gets the all-false bitmask's
variant id. -/
theorem C7_auto_tiling_witness :
    setup.default specConstants C7ctx = Except.ok
      [("variant_number", Value.vInt 0),
       ("variant_fallback", Value.vInt 0),
       ("color_index", Value.vPair (Value.vInt 1) (Value.vInt 1)),
       ("meta_level", Value.vInt 0),
       ("sprite", Value.vPair (Value.vStr "vanilla") (Value.vStr "wall"))] := by
  have h := (C7_auto_tiling specConstants C7ctx C7td 0 0 0 0
    false false false false false false false false 0
    (by decide) rfl (by decide) rfl rfl rfl rfl rfl rfl rfl rfl rfl rfl).1
  exact h.trans rfl

/- ## C8: direction token on a non-direction tile -/

namespace setup

/-- The shared `elif`/`else` tail of the `directions` handler
(variants.py:402-411): `ignore_bad_directions` returns no fields,
`disallow_custom_directions` on a non-text tile raises `BadTilingVariant`
with the tile, the token and the *string `"<missing>"`*, and otherwise the
handler records a custom direction. -/
def directionsRest (ctx : HandlerCtx) (dir : Int) : Except Err Fields :=
  if truthy (dictGet ctx.flags "ignore_bad_directions") then
    Except.ok []
  else if truthy (dictGet ctx.flags "disallow_custom_directions") && !ctx.tile.is_text then
    Except.error (Err.badTilingVariant (TileRef.tile ctx.tile) ctx.variant
      (Value.vStr "<missing>"))
  else
    Except.ok [("custom_direction", Value.vInt dir)]

/-- The `directions` handler (variants.py:388-411): look the token up in
`DIRECTION_VARIANTS`, keep the current animation component, and pack the
new direction when the tile's category supports directions; otherwise fall
through to `directionsRest`. -/
def directions (c : Constants) (ctx : HandlerCtx) : Except Err Fields :=
  match dictGet c.DIRECTION_VARIANTS ctx.variant with
  | none => Except.error Err.keyError
  | some dir =>
    let anim := (split_variant (fieldAsInt ctx.fields "variant_number")).2
    match HandlerCtx.tile_data ctx with
    | some tile_data =>
      if tile_data.tiling ∈ c.DIRECTION_TILINGS then
        Except.ok [("variant_number", Value.vInt (join_variant dir anim)),
                   ("custom_direction", Value.vInt dir)]
      else directionsRest ctx dir
    | none => directionsRest ctx dir

end setup

/-- The C8 scenario static record: tiling category -1 (no directions). -/
def C8td : TileData := ⟨"vanilla", "rock", -1, (0, 3), (0, 1), 0⟩

/-- The C8 scenario handler context: token `"up"` on the non-text,
non-directional tile, with NO flags set. -/
def C8ctx : HandlerCtx :=
  ⟨[], "up", [], [], ⟨"rock", ["up"], false⟩, [], (0, 0, 0, 0), [("rock", C8td)], []⟩

/-- C8 counterexample: with no override flag active, a direction token on
a tile whose category disallows directions does NOT raise
`BadTilingVariant` — the handler succeeds and returns a `custom_direction`
field. -/
theorem C8_counterexample :
    setup.directions specConstants C8ctx
      = Except.ok [("custom_direction", Value.vInt 8)]
    ∧ setup.directions specConstants C8ctx
      ≠ Except.error (Err.badTilingVariant (TileRef.tile ⟨"rock", ["up"], false⟩) "up"
          (Value.vInt (-1))) := by
  constructor
  · rfl
  · intro h
    rw [(rfl : setup.directions specConstants C8ctx
      = Except.ok [("custom_direction", Value.vInt 8)])] at h
    cases h

/-- C8 (amended): a direction token on a tile whose static category is not
direction-supporting raises `BadTilingVariant` only when the
`disallow_custom_directions` flag is set, the `ignore_bad_directions` flag
is unset and the tile is not a text tile — and the raised error carries
the tile, the token and the placeholder string `"<missing>"`, not the
tile's actual tiling category; with no override flag active the handler
instead returns a `custom_direction` field. -/
theorem C8_amended (c : Constants) (ctx : HandlerCtx) (dir : Int) (td : TileData)
    (hdir : dictGet c.DIRECTION_VARIANTS ctx.variant = some dir)
    (htd : HandlerCtx.tile_data ctx = some td)
    (hnd : td.tiling ∉ c.DIRECTION_TILINGS)
    (hig : truthy (dictGet ctx.flags "ignore_bad_directions") = false) :
    (truthy (dictGet ctx.flags "disallow_custom_directions") = true →
      ctx.tile.is_text = false →
      setup.directions c ctx
        = Except.error (Err.badTilingVariant (TileRef.tile ctx.tile) ctx.variant
            (Value.vStr "<missing>")))
    ∧ (truthy (dictGet ctx.flags "disallow_custom_directions") = false →
      setup.directions c ctx = Except.ok [("custom_direction", Value.vInt dir)])
    ∧ (ctx.tile.is_text = true →
      setup.directions c ctx = Except.ok [("custom_direction", Value.vInt dir)]) := by
  refine ⟨fun hdc htext => ?_, fun hdc => ?_, fun htext => ?_⟩ <;>
    simp [setup.directions, setup.directionsRest, hdir, htd, hnd, hig, *]

/-- The C8 witness context with the `disallow_custom_directions` flag
set. -/
def C8ctxD : HandlerCtx :=
  ⟨[], "up", [], [], ⟨"rock", ["up"], false⟩, [], (0, 0, 0, 0), [("rock", C8td)],
   [("disallow_custom_directions", Value.vBool true)]⟩

/-- Witness for C8 (amended): the flagged context raises the error with
`"<missing>"`; the unflagged context succeeds with a custom direction. -/
theorem C8_amended_witness :
    setup.directions specConstants C8ctxD
      = Except.error (Err.badTilingVariant
          (TileRef.tile ⟨"rock", ["up"], false⟩) "up" (Value.vStr "<missing>"))
    ∧ setup.directions specConstants C8ctx
      = Except.ok [("custom_direction", Value.vInt 8)] := by
  constructor
  · exact (C8_amended specConstants C8ctxD 8 C8td rfl rfl (by decide) rfl).1 rfl rfl
  · exact (C8_amended specConstants C8ctx 8 C8td rfl rfl (by decide) rfl).2.1 rfl

/- ## C9: the finalizer's default custom-text style -/

/-- Python string repetition `n * s` for a natural count. -/
def strRepeatN : Nat → String → String
  | 0, _ => ""
  | n + 1, s => s ++ strRepeatN n s

/-- Python string repetition `n * s` (a non-positive int yields `""`). -/
def strRepeat (n : Int) (s : String) : String := strRepeatN n.toNat s

/-- The `FullTile` attributes the registered finalizer reads and writes
(the full descriptor lives in the missing `tile` module; these are the
fields `finalize` touches). -/
structure FullTile where
  name : String
  variant_number : Int
  meta_level : Int
  custom : Bool
  custom_style : Option String
  deriving Repr, DecidableEq

namespace setup

/-- The registered finalizer `finalize` (variants.py:359-375): the
`extra_names` render-cache-key bookkeeping (assign `"render"` into a
non-empty list, else append `meta_`*meta-depth* + `name_variant`), then
the default custom-text style: `"letter"` only for a two-character custom
name (after the 5-character `text_` prefix) WITH the `default_to_letters`
flag, otherwise `"noun"`. -/
def finalize (tile : FullTile) (flags : Flags) : Except Err (FullTile × Flags) := do
  let flags ←
    match dictGet flags "extra_names" with
    | none => Except.ok flags
    | some Value.vNone => Except.ok flags
    | some v =>
      if truthy (some v) then
        match v with
        | Value.vList (_ :: rest) =>
          Except.ok (setField flags "extra_names"
            (Value.vList (Value.vStr "render" :: rest)))
        | _ => Except.error Err.typeError
      else
        match v with
        | Value.vList l =>
          Except.ok (setField flags "extra_names" (Value.vList (l ++
            [Value.vStr (strRepeat tile.meta_level "meta_"
              ++ (tile.name.replace "/" "") ++ "_" ++ toString tile.variant_number)])))
        | _ => Except.error Err.typeError
  if tile.custom = true ∧ tile.custom_style = none then
    if (tile.name.drop 5).length = 2 ∧ truthy (dictGet flags "default_to_letters") = true then
      Except.ok ({ tile with custom_style := some "letter" }, flags)
    else
      Except.ok ({ tile with custom_style := some "noun" }, flags)
  else
    Except.ok (tile, flags)

end setup

/-- The C9 scenario custom tile: name `"text_ab"` (two characters after
the prefix), style unset. -/
def C9tile : FullTile := ⟨"text_ab", 0, 0, true, none⟩

/-- C9 counterexample: a two-character custom name WITHOUT the
`default_to_letters` flag gets style `"noun"`, not `"letter"` as the claim
states. -/
theorem C9_counterexample :
    setup.finalize C9tile [] = Except.ok (⟨"text_ab", 0, 0, true, some "noun"⟩, [])
    ∧ (some "noun" : Option String) ≠ some "letter" := by
  exact ⟨rfl, by simp⟩

/-- C9 (amended): for a custom tile with style unset (and no `extra_names`
bookkeeping requested), the finalizer assigns `"letter"` exactly when the
name after the 5-character prefix is two characters long AND the
`default_to_letters` flag is truthy, and `"noun"` otherwise. -/
theorem C9_amended (tile : FullTile) (flags : Flags)
    (hcustom : tile.custom = true) (hstyle : tile.custom_style = none)
    (hnoextra : dictGet flags "extra_names" = none) :
    setup.finalize tile flags = Except.ok
      ((if (tile.name.drop 5).length = 2 ∧ truthy (dictGet flags "default_to_letters") = true
        then { tile with custom_style := some "letter" }
        else { tile with custom_style := some "noun" }), flags) := by
  unfold setup.finalize
  rw [hnoextra]
  simp only [bind, Except.bind]
  rw [if_pos ⟨hcustom, hstyle⟩]
  split <;> rfl

/-- Witness for C9 (amended): with the flag set, `"text_ab"` gets the
`"letter"` style. -/
theorem C9_amended_witness :
    setup.finalize C9tile [("default_to_letters", Value.vBool true)]
      = Except.ok (⟨"text_ab", 0, 0, true, some "letter"⟩,
          [("default_to_letters", Value.vBool true)]) := by
  have h := C9_amended C9tile [("default_to_letters", Value.vBool true)] rfl rfl rfl
  exact h.trans (by rfl)

/- ## C10: the raw numeric handler swallows its own validation errors -/

namespace setup

/-- The animation checks of `raw_variant`'s try block
(variants.py:493-501). -/
def raw_variant_anim_check (c : Constants) (tileName variantStr : String)
    (tiling anim : Int) : Except Err Unit :=
  if anim ≠ 0 then
    if anim ∈ c.SLEEP_VARIANTS.map Prod.snd then
      if tiling ∉ c.SLEEP_TILINGS then
        Except.error (Err.badTilingVariant (TileRef.name tileName) variantStr
          (Value.vInt tiling))
      else Except.ok ()
    else
      if tiling ∉ c.ANIMATION_TILINGS ∨ anim ∉ c.ANIMATION_VARIANTS.map Prod.snd then
        Except.error (Err.badTilingVariant (TileRef.name tileName) variantStr
          (Value.vInt tiling))
      else Except.ok ()
  else Except.ok ()

/-- The try block of `raw_variant` (variants.py:482-504): the
tiling-category validation of the raw number; on success the raw number is
stored. -/
def raw_variant_check (c : Constants) (tileName variantStr : String)
    (tiling variant : Int) : Except Err Fields := do
  if tiling ∈ c.AUTO_TILINGS then
    if variant ≥ 47 then
      Except.error (Err.badTilingVariant (TileRef.name tileName) variantStr
        (Value.vInt tiling))
    else Except.ok ()
  else do
    let (dir, anim) := split_variant (some variant)
    if dir ≠ 0 then
      if tiling ∉ c.DIRECTION_TILINGS ∨ dir ∉ c.DIRECTIONS then
        Except.error (Err.badTilingVariant (TileRef.name tileName) variantStr
          (Value.vInt tiling))
      else Except.ok ()
    else Except.ok ()
    raw_variant_anim_check c tileName variantStr tiling anim
  Except.ok [("variant_number", Value.vInt variant)]

/-- `int(s)` for the all-digit tokens matched by the `\d{1,2}` pattern. -/
def pyParseNat (s : String) : Int :=
  (s.data.foldl (fun acc ch => acc * 10 + (ch.toNat - 48)) 0 : Nat)

/-- The `raw_variant` handler (variants.py:471-508): `int(ctx.variant)`
(the `\d{1,2}` pattern guarantees the parse), `VariantError` when the tile
has no static record at all, and the whole validation wrapped in a bare
`except BaseException` that converts ANY raised error into
`variant_number = -1`. -/
def raw_variant (c : Constants) (ctx : HandlerCtx) : Except Err Fields :=
  let variant : Int := pyParseNat ctx.variant
  match HandlerCtx.tile_data ctx with
  | none => Except.error (Err.variantError "what tile is that even")
  | some tile_data =>
    match raw_variant_check c ctx.tile.name ctx.variant tile_data.tiling variant with
    | Except.ok f => Except.ok f
    | Except.error _ => Except.ok [("variant_number", Value.vInt (-1))]

end setup

/-- C10: for a tile that has a static record, `raw_variant` never
propagates an error — it always succeeds, and whenever its validation
block raises (any error), the handler returns `variant_number = -1`
because the error is caught inside the handler itself. -/
theorem C10_raw_variant_no_error (c : Constants) (ctx : HandlerCtx) (td : TileData)
    (htd : HandlerCtx.tile_data ctx = some td) :
    (∃ f, setup.raw_variant c ctx = Except.ok f)
    ∧ (∀ e, setup.raw_variant_check c ctx.tile.name ctx.variant td.tiling
          (setup.pyParseNat ctx.variant) = Except.error e →
        setup.raw_variant c ctx = Except.ok [("variant_number", Value.vInt (-1))]) := by
  unfold setup.raw_variant
  rw [htd]
  cases hchk : setup.raw_variant_check c ctx.tile.name ctx.variant td.tiling
      (setup.pyParseNat ctx.variant) with
  | ok f =>
    refine ⟨⟨f, by simp [hchk]⟩, fun e he => ?_⟩
    simp at he
  | error e0 =>
    exact ⟨⟨[("variant_number", Value.vInt (-1))], by simp [hchk]⟩,
      fun e he => by simp [hchk]⟩

/-- The C10 scenario static record: auto-tiled category. -/
def C10td : TileData := ⟨"vanilla", "wall", 1, (1, 1), (1, 0), 0⟩

/-- The C10 scenario context: raw token `"47"` on the auto-tiled tile —
the validation rejects 47 on auto-tiling categories. -/
def C10ctx : HandlerCtx :=
  ⟨[], "47", [], [], ⟨"wall", ["47"], false⟩, [], (0, 0, 0, 0), [("wall", C10td)], []⟩

/-- Witness for C10: token `"47"` on an auto-tiled tile is rejected by the
validation, and the handler succeeds with `variant_number = -1`. -/
theorem C10_raw_variant_no_error_witness :
    setup.raw_variant specConstants C10ctx
      = Except.ok [("variant_number", Value.vInt (-1))] :=
  (C10_raw_variant_no_error specConstants C10ctx C10td rfl).2
    (Err.badTilingVariant (TileRef.name "wall") "47" (Value.vInt 1)) (by rfl)
